import Mathlib

/-!
Shallow embedding of the Kubernetes scan orchestrator
(`pkg/scanners/kubernetes/scanner.go`).

The external collaborators (the document parser `parser.ParseFS`, the rego
engine `rego.NewScanner` / `LoadPolicies` / `ScanInput`, the in-memory
filesystem `memoryfs`, and the stream reader `io.ReadAll`) are modelled as
fields of an `Env` record of pure functions; the scanner's mutable state is
threaded explicitly, and every external call is recorded in an event trace so
that claims about "what was invoked" are directly expressible.
-/

namespace K8s

/-- Decidable equality for `Except`, so that scan outcomes can be compared by
evaluation on closed inputs. -/
instance {ε α : Type} [DecidableEq ε] [DecidableEq α] : DecidableEq (Except ε α) :=
  fun a b =>
    match a, b with
    | .ok x, .ok y =>
      if h : x = y then .isTrue (by simp [h]) else .isFalse (by simp [h])
    | .ok _, .error _ => .isFalse (by simp)
    | .error _, .ok _ => .isFalse (by simp)
    | .error x, .error y =>
      if h : x = y then .isTrue (by simp [h]) else .isFalse (by simp [h])

section Model

/-- Modelled from the spec: the document parser
(`pkg/scanners/kubernetes/parser`, not under `src/`) is constructed once, in
`NewScanner`, via `parser.New(options.ParserWithSkipRequiredCheck(s.skipRequired))`;
only the configuration captured at construction matters here. -/
structure ParserCfg where
  skipRequired : Bool
deriving DecidableEq, Repr

/-- One configuration option, i.e. one call against the
`options.ConfigurableScanner` interface, as produced by `options.ScannerWith...`
helpers and consumed by `NewScanner`. -/
inductive ScannerOption (FS Reader Writer Framework : Type) where
  | setSpec (v : String)
  | setRegoOnly (b : Bool)
  | setFrameworks (fw : List Framework)
  | setUseEmbeddedPolicies (b : Bool)
  | setPolicyReaders (rs : List Reader)
  | setSkipRequiredCheck (b : Bool)
  | setDebugWriter (w : Writer)
  | setTraceWriter (w : Writer)
  | setPerResultTracingEnabled (b : Bool)
  | setPolicyDirs (ds : List String)
  | setDataDirs (ds : List String)
  | setPolicyNamespaces (ns : List String)
  | setPolicyFilesystem (f : FS)
  | setDataFilesystem (f : FS)
deriving DecidableEq, Repr

/-- The `Scanner` struct of `scanner.go` (the `sync.Mutex` is elided here;
the interleaving model below treats it). `debug` stands for the
`debug.Logger` field as the writer it was built from. -/
structure Scanner (FS Reader Writer Framework Engine : Type) where
  debug : Option Writer
  options : List (ScannerOption FS Reader Writer Framework)
  policyDirs : List String
  policyReaders : List Reader
  regoScanner : Option Engine
  parser : ParserCfg
  skipRequired : Bool
  loadEmbedded : Bool
  frameworks : List Framework
  spec : String
deriving DecidableEq, Repr

variable {FS Doc Err Engine Reader Writer Framework Data Rule Status : Type}

/-- Setter `SetSpec` of `scanner.go`. -/
def SetSpec (s : Scanner FS Reader Writer Framework Engine) (v : String) :
    Scanner FS Reader Writer Framework Engine :=
  { s with spec := v }

/-- Setter `SetRegoOnly` of `scanner.go` (a no-op). -/
def SetRegoOnly (s : Scanner FS Reader Writer Framework Engine) (_ : Bool) :
    Scanner FS Reader Writer Framework Engine :=
  s

/-- Setter `SetFrameworks` of `scanner.go`. -/
def SetFrameworks (s : Scanner FS Reader Writer Framework Engine)
    (fw : List Framework) : Scanner FS Reader Writer Framework Engine :=
  { s with frameworks := fw }

/-- Setter `SetUseEmbeddedPolicies` of `scanner.go`. -/
def SetUseEmbeddedPolicies (s : Scanner FS Reader Writer Framework Engine)
    (b : Bool) : Scanner FS Reader Writer Framework Engine :=
  { s with loadEmbedded := b }

/-- Setter `SetPolicyReaders` of `scanner.go`. -/
def SetPolicyReaders (s : Scanner FS Reader Writer Framework Engine)
    (rs : List Reader) : Scanner FS Reader Writer Framework Engine :=
  { s with policyReaders := rs }

/-- Setter `SetSkipRequiredCheck` of `scanner.go`: it assigns the
`skipRequired` field and nothing else. -/
def SetSkipRequiredCheck (s : Scanner FS Reader Writer Framework Engine)
    (skip : Bool) : Scanner FS Reader Writer Framework Engine :=
  { s with skipRequired := skip }

/-- Setter `SetDebugWriter` of `scanner.go`: `s.debug = debug.New(writer, ...)`. -/
def SetDebugWriter (s : Scanner FS Reader Writer Framework Engine)
    (w : Writer) : Scanner FS Reader Writer Framework Engine :=
  { s with debug := some w }

/-- Setter `SetTraceWriter` of `scanner.go` (a no-op). -/
def SetTraceWriter (s : Scanner FS Reader Writer Framework Engine)
    (_ : Writer) : Scanner FS Reader Writer Framework Engine :=
  s

/-- Setter `SetPerResultTracingEnabled` of `scanner.go` (a no-op). -/
def SetPerResultTracingEnabled (s : Scanner FS Reader Writer Framework Engine)
    (_ : Bool) : Scanner FS Reader Writer Framework Engine :=
  s

/-- Setter `SetPolicyDirs` of `scanner.go`. -/
def SetPolicyDirs (s : Scanner FS Reader Writer Framework Engine)
    (ds : List String) : Scanner FS Reader Writer Framework Engine :=
  { s with policyDirs := ds }

/-- Setter `SetDataDirs` of `scanner.go` (a no-op). -/
def SetDataDirs (s : Scanner FS Reader Writer Framework Engine)
    (_ : List String) : Scanner FS Reader Writer Framework Engine :=
  s

/-- Setter `SetPolicyNamespaces` of `scanner.go` (a no-op). -/
def SetPolicyNamespaces (s : Scanner FS Reader Writer Framework Engine)
    (_ : List String) : Scanner FS Reader Writer Framework Engine :=
  s

/-- Setter `SetPolicyFilesystem` of `scanner.go` (a no-op on the struct;
handled by rego when the option is passed on). -/
def SetPolicyFilesystem (s : Scanner FS Reader Writer Framework Engine)
    (_ : FS) : Scanner FS Reader Writer Framework Engine :=
  s

/-- Setter `SetDataFilesystem` of `scanner.go` (a no-op on the struct). -/
def SetDataFilesystem (s : Scanner FS Reader Writer Framework Engine)
    (_ : FS) : Scanner FS Reader Writer Framework Engine :=
  s

/-- Applying one `ScannerOption`: each `options.ScannerWith...` helper is a
closure invoking the corresponding setter, so `opt(s)` dispatches here. -/
def applyOption (o : ScannerOption FS Reader Writer Framework)
    (s : Scanner FS Reader Writer Framework Engine) :
    Scanner FS Reader Writer Framework Engine :=
  match o with
  | .setSpec v => SetSpec s v
  | .setRegoOnly b => SetRegoOnly s b
  | .setFrameworks fw => SetFrameworks s fw
  | .setUseEmbeddedPolicies b => SetUseEmbeddedPolicies s b
  | .setPolicyReaders rs => SetPolicyReaders s rs
  | .setSkipRequiredCheck b => SetSkipRequiredCheck s b
  | .setDebugWriter w => SetDebugWriter s w
  | .setTraceWriter w => SetTraceWriter s w
  | .setPerResultTracingEnabled b => SetPerResultTracingEnabled s b
  | .setPolicyDirs ds => SetPolicyDirs s ds
  | .setDataDirs ds => SetDataDirs s ds
  | .setPolicyNamespaces ns => SetPolicyNamespaces s ns
  | .setPolicyFilesystem f => SetPolicyFilesystem s f
  | .setDataFilesystem f => SetDataFilesystem s f

/-- The Go zero value of the `Scanner` struct, before `NewScanner` runs the
options (the nil `*parser.Parser` is a placeholder config, overwritten by
`NewScanner` before any use). -/
def zeroScanner (FS Reader Writer Framework Engine : Type) :
    Scanner FS Reader Writer Framework Engine :=
  { debug := none
    options := []
    policyDirs := []
    policyReaders := []
    regoScanner := none
    parser := ⟨false⟩
    skipRequired := false
    loadEmbedded := false
    frameworks := []
    spec := "" }

/-- Constructor `NewScanner` of `scanner.go`: stores the options, applies each
of them, then builds the document parser from the resulting `skipRequired`
flag. -/
def NewScanner (opts : List (ScannerOption FS Reader Writer Framework)) :
    Scanner FS Reader Writer Framework Engine :=
  let s := opts.foldl (fun s o => applyOption o s)
    { (zeroScanner FS Reader Writer Framework Engine) with options := opts }
  { s with parser := ⟨s.skipRequired⟩ }

/-- The `rego.Input` struct: one unit of evaluation work. -/
structure Input (FS Doc : Type) where
  Path : String
  FS : FS
  Contents : Doc
deriving DecidableEq, Repr

/-- Modelled from the spec: one finding of `scan.Results` (the `scan` package
is not under `src/`) — a rule identifier, a pass/fail/error status, and the
provenance fields (source label, filesystem reference, mixed-filesystem
flag) set by the orchestrator. -/
structure Result (Rule Status FS : Type) where
  rule : Rule
  status : Status
  source : String
  fsys : Option FS
  fsMixed : Bool
deriving DecidableEq, Repr

/-- Modelled from the spec: `scan.Results` is the ordered sequence of
findings. -/
abbrev Results (Rule Status FS : Type) : Type :=
  List (Result Rule Status FS)

/-- Modelled from the spec: `Results.SetSourceAndFilesystem(source, fs, mixed)`
(in the `scan` package, not under `src/`) writes the provenance fields of
every finding. -/
def SetSourceAndFilesystem (rs : Results Rule Status FS) (source : String)
    (f : FS) (mixed : Bool) : Results Rule Status FS :=
  rs.map fun r => { r with source := source, fsys := some f, fsMixed := mixed }

/-- Observable external calls made by a scan, in order. -/
inductive Event (FS Doc : Type) where
  | parse (dir : String)
  | newEngine
  | loadPolicies
  | scanInput (inputs : List (Input FS Doc))
deriving DecidableEq, Repr

/-- The external collaborators, as pure functions: the document parser, the
rego engine (construction bundled with `SetParentDebugLogger`; `LoadPolicies`
returning `some err` on failure; `ScanInput`), `io.ReadAll`, and the
`memoryfs` operations used by `ScanReader`. -/
structure Env (FS Doc Err Engine Reader Writer Framework Data Rule Status : Type) where
  parseFS : ParserCfg → FS → String → Except Err (List (String × List Doc))
  newScanner : List (ScannerOption FS Reader Writer Framework) → Option Writer → Engine
  loadPolicies : Engine → Bool → FS → List String → List Reader → Option Err
  scanInput : Engine → List (Input FS Doc) → Except Err (Results Rule Status FS)
  readAll : Reader → Except Err Data
  emptyFS : FS
  mkdirAll : FS → String → Except Err FS
  writeFile : FS → String → Data → Except Err FS

/-- Method `initRegoScanner` of `scanner.go`: under the scanner's mutex,
return the cached engine if present; otherwise construct one, propagate the
debug logger, load policies (failing without caching), and cache it.
Returns (outcome, updated scanner, trace of external calls). -/
def initRegoScanner (env : Env FS Doc Err Engine Reader Writer Framework Data Rule Status)
    (s : Scanner FS Reader Writer Framework Engine) (srcFS : FS) :
    Except Err Engine × Scanner FS Reader Writer Framework Engine × List (Event FS Doc) :=
  match s.regoScanner with
  | some r => (.ok r, s, [])
  | none =>
    let regoScanner := env.newScanner s.options s.debug
    match env.loadPolicies regoScanner s.loadEmbedded srcFS s.policyDirs s.policyReaders with
    | some e => (.error e, s, [.newEngine, .loadPolicies])
    | none =>
      (.ok regoScanner, { s with regoScanner := some regoScanner },
        [.newEngine, .loadPolicies])

/-- The input-adapter loop of `ScanFS`: one `rego.Input` per (path, document)
pair of the parsed fileset mapping, tagged with the scanned filesystem. -/
def buildInputs (target : FS) (fsets : List (String × List Doc)) :
    List (Input FS Doc) :=
  fsets.foldr (fun pf acc =>
    pf.2.map (fun content => Input.mk pf.1 target content) ++ acc) []

/-- Method `ScanFS` of `scanner.go`. The first component models the Go pair
(`scan.Results`, `error`): `.error e` is (nil, e), `.ok none` is (nil, nil),
`.ok (some rs)` is (rs, nil). -/
def ScanFS (env : Env FS Doc Err Engine Reader Writer Framework Data Rule Status)
    (s : Scanner FS Reader Writer Framework Engine) (target : FS) (dir : String) :
    Except Err (Option (Results Rule Status FS)) ×
      Scanner FS Reader Writer Framework Engine × List (Event FS Doc) :=
  match env.parseFS s.parser target dir with
  | .error e => (.error e, s, [.parse dir])
  | .ok k8sFilesets =>
    if k8sFilesets.length = 0 then
      (.ok none, s, [.parse dir])
    else
      let inputs := buildInputs target k8sFilesets
      match initRegoScanner env s target with
      | (.error e, s2, ev) => (.error e, s2, .parse dir :: ev)
      | (.ok regoScanner, s2, ev) =>
        match env.scanInput regoScanner inputs with
        | .error e => (.error e, s2, .parse dir :: (ev ++ [.scanInput inputs]))
        | .ok results =>
          (.ok (some (SetSourceAndFilesystem results "" target false)), s2,
            .parse dir :: (ev ++ [.scanInput inputs]))

/-- Go's `filepath.Base` (Unix path separator): "." for the empty path,
otherwise strip trailing slashes, take the last element, "/" if nothing
remains. -/
def filepathBase (path : String) : String :=
  if path = "" then "."
  else
    let stripped := (path.toList.reverse.dropWhile (fun c => c = '/')).reverse
    let base := (stripped.reverse.takeWhile (fun c => c ≠ '/')).reverse
    if base = [] then "/"
    else String.mk base

/-- Method `ScanReader` of `scanner.go`: build an in-memory filesystem,
`MkdirAll(filepath.Base(filename))`, read the stream, write the file, then
delegate to `ScanFS` on directory ".". -/
def ScanReader (env : Env FS Doc Err Engine Reader Writer Framework Data Rule Status)
    (s : Scanner FS Reader Writer Framework Engine) (filename : String) (reader : Reader) :
    Except Err (Option (Results Rule Status FS)) ×
      Scanner FS Reader Writer Framework Engine × List (Event FS Doc) :=
  match env.mkdirAll env.emptyFS (filepathBase filename) with
  | .error e => (.error e, s, [])
  | .ok memfs0 =>
    match env.readAll reader with
    | .error e => (.error e, s, [])
    | .ok data =>
      match env.writeFile memfs0 filename data with
      | .error e => (.error e, s, [])
      | .ok memfs => ScanFS env s memfs "."

end Model

/-!
Interleaving model of `initRegoScanner` under the scanner's `sync.Mutex`, for
the concurrency claims. Each goroutine runs the body of `initRegoScanner`:
acquire the lock, check the cache, on a miss construct the engine and load
policies (assumed to succeed — first-time scan calls), store it in the cache,
release the lock. `newEngine k` is the engine produced by the k-th execution
of the construction routine, so distinct executions are distinguishable.
-/

section Concurrency

/-- Program counter of one goroutine inside `initRegoScanner`. -/
inductive PC (Engine : Type) where
  | waiting
  | cacheCheck
  | load
  | done (e : Engine)
deriving DecidableEq, Repr

/-- Shared state: the mutex (holder's thread id), the `regoScanner` cache
field, how many times the construction routine has executed, and every
thread's program counter. -/
structure CState (Engine : Type) where
  lock : Option Nat
  cache : Option Engine
  loadCount : Nat
  pcs : Nat → PC Engine

/-- Initial state of a first-time scan: cache empty, lock free, no
construction yet, every thread about to call `initRegoScanner`. -/
def initCState (Engine : Type) : CState Engine :=
  { lock := none, cache := none, loadCount := 0, pcs := fun _ => .waiting }

/-- One interleaved step of some thread `i` running `initRegoScanner`. -/
inductive Step {Engine : Type} (newEngine : Nat → Engine) :
    CState Engine → CState Engine → Prop where
  | acquire (st : CState Engine) (i : Nat) :
      st.pcs i = .waiting → st.lock = none →
      Step newEngine st
        { st with lock := some i, pcs := Function.update st.pcs i .cacheCheck }
  | hitCache (st : CState Engine) (i : Nat) (e : Engine) :
      st.pcs i = .cacheCheck → st.lock = some i → st.cache = some e →
      Step newEngine st
        { st with lock := none, pcs := Function.update st.pcs i (.done e) }
  | missCache (st : CState Engine) (i : Nat) :
      st.pcs i = .cacheCheck → st.lock = some i → st.cache = none →
      Step newEngine st { st with pcs := Function.update st.pcs i .load }
  | construct (st : CState Engine) (i : Nat) :
      st.pcs i = .load → st.lock = some i →
      Step newEngine st
        { st with
          lock := none
          cache := some (newEngine st.loadCount)
          loadCount := st.loadCount + 1
          pcs := Function.update st.pcs i (.done (newEngine st.loadCount)) }

/-- The mutex invariant of `initRegoScanner`: only the lock holder is inside
the critical section, a thread about to construct saw an empty cache, the
construction routine has run exactly as many times as the cache is filled,
and a finished thread returned exactly the cached engine. -/
def Inv {Engine : Type} (newEngine : Nat → Engine) (st : CState Engine) : Prop :=
  (∀ i, st.pcs i = .cacheCheck ∨ st.pcs i = .load → st.lock = some i) ∧
  (∀ i, st.pcs i = .load → st.cache = none) ∧
  (st.cache = none → st.loadCount = 0) ∧
  (∀ e, st.cache = some e → st.loadCount = 1 ∧ e = newEngine 0) ∧
  (∀ i e, st.pcs i = .done e → st.cache = some e)

end Concurrency

/-!
Concrete instantiations of the external collaborators, used to evaluate the
model on closed inputs: `FS := Unit`, documents, errors, engines and rule
identifiers are `Nat`, statuses are `Bool`, readers/writers/frameworks are
`Unit`, raw data is `List Nat`.
-/

section Demo

/-- Environment whose parser finds two files, one with one document and one
with two, and whose engine reports one passing finding per input. -/
def demoEnv : Env Unit Nat Nat Nat Unit Unit Unit (List Nat) Nat Bool where
  parseFS := fun _ _ _ => .ok [("pod.yaml", [7]), ("svc.yaml", [8, 9])]
  newScanner := fun _ _ => 0
  loadPolicies := fun _ _ _ _ _ => none
  scanInput := fun _ inputs =>
    .ok (inputs.map fun i => ⟨i.Contents, true, "raw", none, true⟩)
  readAll := fun _ => .ok [1, 2]
  emptyFS := ()
  mkdirAll := fun f _ => .ok f
  writeFile := fun f _ _ => .ok f

/-- Environment whose parser finds nothing (empty mapping). -/
def envEmptyMap : Env Unit Nat Nat Nat Unit Unit Unit (List Nat) Nat Bool :=
  { demoEnv with parseFS := fun _ _ _ => .ok [] }

/-- Environment whose parser returns a non-empty mapping holding zero
documents in total. -/
def envZeroDocs : Env Unit Nat Nat Nat Unit Unit Unit (List Nat) Nat Bool :=
  { demoEnv with parseFS := fun _ _ _ => .ok [("pod.yaml", [])] }

/-- Environment whose parser fails with error 3. -/
def envParseErr : Env Unit Nat Nat Nat Unit Unit Unit (List Nat) Nat Bool :=
  { demoEnv with parseFS := fun _ _ _ => .error 3 }

/-- Environment whose policy loading fails with error 5. -/
def envLoadFail : Env Unit Nat Nat Nat Unit Unit Unit (List Nat) Nat Bool :=
  { demoEnv with loadPolicies := fun _ _ _ _ _ => some 5 }

/-- A freshly constructed scanner with no options. -/
def demoScanner : Scanner Unit Unit Unit Unit Nat :=
  NewScanner []

/-- The demo scanner with an engine already cached. -/
def demoScannerCached : Scanner Unit Unit Unit Unit Nat :=
  { demoScanner with regoScanner := some 42 }

end Demo

/-! Theorems. -/

/-- Unfolding `buildInputs` on a cons cell. -/
theorem buildInputs_cons {FS Doc : Type} (target : FS) (pf : String × List Doc)
    (rest : List (String × List Doc)) :
    buildInputs target (pf :: rest)
      = (pf.2.map fun content => Input.mk pf.1 target content)
          ++ buildInputs target rest :=
  rfl

/-- A mapping whose document lists are all empty flattens to no inputs. -/
theorem buildInputs_eq_nil_of_no_docs {FS Doc : Type} (target : FS)
    (fsets : List (String × List Doc)) (h : ∀ pf ∈ fsets, pf.2 = []) :
    buildInputs target fsets = [] := by
  induction fsets with
  | nil => rfl
  | cons pf rest ih =>
    have h1 := h pf (List.mem_cons_self pf rest)
    have h2 : ∀ q ∈ rest, q.2 = [] := fun q hq => h q (List.mem_cons_of_mem _ hq)
    simp [buildInputs_cons, h1, ih h2]

/-- The trace of `initRegoScanner` on a scanner with an empty cache records
the engine construction and the policy load, whether or not loading
succeeds. -/
theorem initRegoScanner_trace_of_uncached
    {FS Doc Err Engine Reader Writer Framework Data Rule Status : Type}
    (env : Env FS Doc Err Engine Reader Writer Framework Data Rule Status)
    (s : Scanner FS Reader Writer Framework Engine) (srcFS : FS)
    (h : s.regoScanner = none) :
    (initRegoScanner env s srcFS).2.2 = [Event.newEngine, Event.loadPolicies] := by
  cases hl : env.loadPolicies (env.newScanner s.options s.debug) s.loadEmbedded srcFS
      s.policyDirs s.policyReaders <;>
    simp [initRegoScanner, h, hl]

/-- The trace of `initRegoScanner` never records an evaluation call. -/
theorem initRegoScanner_trace_cases
    {FS Doc Err Engine Reader Writer Framework Data Rule Status : Type}
    (env : Env FS Doc Err Engine Reader Writer Framework Data Rule Status)
    (s : Scanner FS Reader Writer Framework Engine) (srcFS : FS) :
    (initRegoScanner env s srcFS).2.2 = [] ∨
    (initRegoScanner env s srcFS).2.2 = [Event.newEngine, Event.loadPolicies] := by
  cases hc : s.regoScanner with
  | some e => exact Or.inl (by simp [initRegoScanner, hc])
  | none => exact Or.inr (initRegoScanner_trace_of_uncached env s srcFS hc)

/-- Membership in the flattened input sequence: an input occurs exactly when
its path/contents come from one entry of the parsed mapping and its
filesystem tag is the scanned filesystem. -/
theorem mem_buildInputs_iff {FS Doc : Type} (target : FS)
    (fsets : List (String × List Doc)) (i : Input FS Doc) :
    i ∈ buildInputs target fsets ↔
      ∃ pf ∈ fsets, i.Path = pf.1 ∧ i.FS = target ∧ i.Contents ∈ pf.2 := by
  obtain ⟨p, f, c⟩ := i
  induction fsets with
  | nil => simp [buildInputs]
  | cons pf rest ih =>
    simp only [buildInputs_cons, List.mem_append, List.mem_map, List.mem_cons, ih]
    constructor
    · rintro (⟨d, hd, heq⟩ | ⟨q, hq, hpath, hfs, hc⟩)
      · cases heq
        exact ⟨pf, Or.inl rfl, rfl, rfl, hd⟩
      · exact ⟨q, Or.inr hq, hpath, hfs, hc⟩
    · rintro ⟨q, hq | hq, hpath, hfs, hc⟩
      · subst hq
        cases hpath
        cases hfs
        exact Or.inl ⟨c, hc, rfl⟩
      · exact Or.inr ⟨q, hq, hpath, hfs, hc⟩

/-- The flattened sequence has one element per (path, document) pair. -/
theorem buildInputs_length {FS Doc : Type} (target : FS)
    (fsets : List (String × List Doc)) :
    (buildInputs target fsets).length = (fsets.map fun pf => pf.2.length).sum := by
  induction fsets with
  | nil => rfl
  | cons pf rest ih => simp [buildInputs_cons, ih]

/-- Projecting the flattened sequence to (path, contents) pairs recovers the
parsed mapping's pairs, unmodified and in order. -/
theorem buildInputs_map_pair {FS Doc : Type} (target : FS)
    (fsets : List (String × List Doc)) :
    ((buildInputs target fsets).map fun i => (i.Path, i.Contents))
      = fsets.foldr (fun pf acc => (pf.2.map fun d => (pf.1, d)) ++ acc) [] := by
  induction fsets with
  | nil => rfl
  | cons pf rest ih =>
    simp only [buildInputs_cons, List.map_append, List.map_map, List.foldr_cons, ih]
    rfl

/-- Filtering the flattened sequence by one path of the mapping (paths being
distinct, as the keys of a Go map are) recovers exactly that path's documents
in parser order. -/
theorem buildInputs_filter_path {FS Doc : Type} (target : FS)
    (fsets : List (String × List Doc)) (pf : String × List Doc)
    (hmem : pf ∈ fsets)
    (hnd : fsets.Pairwise fun a b => a.1 ≠ b.1) :
    (((buildInputs target fsets).filter fun i => i.Path == pf.1).map
        fun i => i.Contents) = pf.2 := by
  induction fsets with
  | nil => cases hmem
  | cons qf rest ih =>
    rw [buildInputs_cons, List.filter_append, List.map_append]
    rcases List.mem_cons.mp hmem with heq | hrest
    · subst heq
      have hhead : ((pf.2.map fun c => Input.mk pf.1 target c).filter
          fun i => i.Path == pf.1) = pf.2.map fun c => Input.mk pf.1 target c := by
        rw [List.filter_eq_self]
        intro a ha
        obtain ⟨c, _, rfl⟩ := List.mem_map.mp ha
        simp
      have htail : ((buildInputs target rest).filter fun i => i.Path == pf.1)
          = [] := by
        rw [List.filter_eq_nil_iff]
        intro a ha
        obtain ⟨q, hq, hpath, _, _⟩ := (mem_buildInputs_iff target rest a).mp ha
        have hne : pf.1 ≠ q.1 := (List.pairwise_cons.mp hnd).1 q hq
        simp [hpath, Ne.symm hne]
      have hid : ((fun i : Input FS Doc => i.Contents)
          ∘ fun content => Input.mk pf.1 target content) = fun c => c := rfl
      simp [hhead, htail, List.map_map, hid]
    · have hne : qf.1 ≠ pf.1 := (List.pairwise_cons.mp hnd).1 pf hrest
      have hhead : ((qf.2.map fun c => Input.mk qf.1 target c).filter
          fun i => i.Path == pf.1) = [] := by
        rw [List.filter_eq_nil_iff]
        intro a ha
        obtain ⟨c, _, rfl⟩ := List.mem_map.mp ha
        simp [hne]
      rw [hhead]
      simpa using ih hrest (List.pairwise_cons.mp hnd).2

/-- Counterexample to C2: a non-empty parser mapping holding zero documents
in total is not treated like the empty mapping — `ScanFS` constructs the
engine (policy loading runs, the cache is filled) and returns an annotated
empty result instead of the nil result of the empty-mapping case. -/
theorem claim_C2_counterexample :
    envZeroDocs.parseFS demoScanner.parser () "." = .ok [("pod.yaml", [])] ∧
    Event.newEngine ∈ (ScanFS envZeroDocs demoScanner () ".").2.2 ∧
    Event.loadPolicies ∈ (ScanFS envZeroDocs demoScanner () ".").2.2 ∧
    Event.scanInput [] ∈ (ScanFS envZeroDocs demoScanner () ".").2.2 ∧
    (ScanFS envZeroDocs demoScanner () ".").2.1.regoScanner = some 0 ∧
    (ScanFS envZeroDocs demoScanner () ".").1 ≠ .ok none ∧
    ScanFS envZeroDocs demoScanner () "." ≠ ScanFS envEmptyMap demoScanner () "." := by
  decide

/-- C2 (amended): a non-empty mapping with zero total documents is not
short-circuited by `ScanFS`: the flattened input sequence is empty, yet with
an empty cache the engine is still constructed (policy loading runs), and
evaluation is invoked on the empty input batch; on success the annotated
evaluation result is returned with no error. -/
theorem claim_C2_zero_docs_still_evaluates
    {FS Doc Err Engine Reader Writer Framework Data Rule Status : Type}
    (env : Env FS Doc Err Engine Reader Writer Framework Data Rule Status)
    (s : Scanner FS Reader Writer Framework Engine) (target : FS) (dir : String)
    (fsets : List (String × List Doc))
    (h1 : env.parseFS s.parser target dir = .ok fsets)
    (h2 : fsets ≠ [])
    (h3 : ∀ pf ∈ fsets, pf.2 = []) :
    buildInputs target fsets = [] ∧
    (s.regoScanner = none →
      Event.newEngine ∈ (ScanFS env s target dir).2.2 ∧
      Event.loadPolicies ∈ (ScanFS env s target dir).2.2) ∧
    (∀ eng s2 ev, initRegoScanner env s target = (.ok eng, s2, ev) →
      ∀ raw, env.scanInput eng [] = .ok raw →
        ScanFS env s target dir
          = (.ok (some (SetSourceAndFilesystem raw "" target false)), s2,
              Event.parse dir :: (ev ++ [Event.scanInput []]))) := by
  have hbi : buildInputs target fsets = [] :=
    buildInputs_eq_nil_of_no_docs target fsets h3
  have hlen : ¬fsets.length = 0 := by simpa [List.length_eq_zero] using h2
  refine ⟨hbi, ?_, ?_⟩
  · intro hnone
    have hev := initRegoScanner_trace_of_uncached env s target hnone
    rcases hinit : initRegoScanner env s target with ⟨r, s2, ev⟩
    rw [hinit] at hev
    simp only at hev
    cases r with
    | error e => simp [ScanFS, h1, hlen, hinit, hev]
    | ok eng =>
      cases hscan : env.scanInput eng (buildInputs target fsets) <;>
        simp [ScanFS, h1, hlen, hinit, hscan, hev]
  · intro eng s2 ev hinit raw hraw
    simp [ScanFS, h1, hlen, hinit, hbi, hraw]

/-- Witness for the amended C2 at a concrete environment: one path, zero
documents, an empty input batch evaluated, an annotated empty result. -/
theorem claim_C2_witness :
    ScanFS envZeroDocs demoScanner () "."
      = (.ok (some (SetSourceAndFilesystem [] "" () false)),
          { demoScanner with regoScanner := some 0 },
          Event.parse "." :: ([Event.newEngine, Event.loadPolicies]
            ++ [Event.scanInput []])) :=
  (claim_C2_zero_docs_still_evaluates envZeroDocs demoScanner () "."
      [("pod.yaml", [])] (by decide) (by decide) (by decide)).2.2 0
    { demoScanner with regoScanner := some 0 }
    [Event.newEngine, Event.loadPolicies] (by decide) [] (by decide)

/-- C1: for every filesystem and directory, if the parser returns an empty
mapping, `ScanFS` returns (nil result, nil error), leaves the scanner — in
particular its cached `regoScanner` field — unchanged, and neither constructs
an engine nor invokes `LoadPolicies` on that call. -/
theorem claim_C1_empty_mapping_short_circuit
    {FS Doc Err Engine Reader Writer Framework Data Rule Status : Type}
    (env : Env FS Doc Err Engine Reader Writer Framework Data Rule Status)
    (s : Scanner FS Reader Writer Framework Engine) (target : FS) (dir : String)
    (h : env.parseFS s.parser target dir = .ok []) :
    ScanFS env s target dir = (.ok none, s, [Event.parse dir]) ∧
    (ScanFS env s target dir).2.1.regoScanner = s.regoScanner ∧
    Event.loadPolicies ∉ (ScanFS env s target dir).2.2 ∧
    Event.newEngine ∉ (ScanFS env s target dir).2.2 := by
  simp [ScanFS, h]

/-- Witness for C1 at a concrete environment whose parser finds nothing. -/
theorem claim_C1_witness :
    envEmptyMap.parseFS demoScanner.parser () "." = .ok [] ∧
    ScanFS envEmptyMap demoScanner () "." = (.ok none, demoScanner, [Event.parse "."]) :=
  ⟨by decide,
    (claim_C1_empty_mapping_short_circuit envEmptyMap demoScanner () "." (by decide)).1⟩

/-- C6: for a non-empty parsed mapping, the flattened input sequence built by
`ScanFS` has exactly one input per (path, document) pair, every input carries
the scanned filesystem handle, projecting inputs to (path, contents) pairs
recovers the mapping's pairs unmodified with each path's documents in parser
order, filtering by one path recovers exactly that path's document list, and
any evaluation call recorded by `ScanFS` is passed exactly this sequence. -/
theorem claim_C6_input_adapter_flattening
    {FS Doc Err Engine Reader Writer Framework Data Rule Status : Type}
    (env : Env FS Doc Err Engine Reader Writer Framework Data Rule Status)
    (s : Scanner FS Reader Writer Framework Engine) (target : FS) (dir : String)
    (fsets : List (String × List Doc))
    (h1 : env.parseFS s.parser target dir = .ok fsets)
    (h2 : fsets ≠ [])
    (h3 : fsets.Pairwise fun a b => a.1 ≠ b.1) :
    (buildInputs target fsets).length = (fsets.map fun pf => pf.2.length).sum ∧
    (∀ i ∈ buildInputs target fsets, i.FS = target) ∧
    ((buildInputs target fsets).map fun i => (i.Path, i.Contents))
      = fsets.foldr (fun pf acc => (pf.2.map fun d => (pf.1, d)) ++ acc) [] ∧
    (∀ pf ∈ fsets,
      (((buildInputs target fsets).filter fun i => i.Path == pf.1).map
          fun i => i.Contents) = pf.2) ∧
    (∀ inps, Event.scanInput inps ∈ (ScanFS env s target dir).2.2 →
      inps = buildInputs target fsets) := by
  have hlen : ¬fsets.length = 0 := by simpa [List.length_eq_zero] using h2
  refine ⟨buildInputs_length target fsets, ?_, buildInputs_map_pair target fsets,
    fun pf hpf => buildInputs_filter_path target fsets pf hpf h3, ?_⟩
  · intro i hi
    obtain ⟨_, _, _, hfs, _⟩ := (mem_buildInputs_iff target fsets i).mp hi
    exact hfs
  · intro inps
    have hev := initRegoScanner_trace_cases env s target
    rcases hinit : initRegoScanner env s target with ⟨r, s2, ev⟩
    rw [hinit] at hev
    simp only at hev
    cases r with
    | error e =>
      rcases hev with hev | hev <;> simp [ScanFS, h1, hlen, hinit, hev]
    | ok eng =>
      cases hscan : env.scanInput eng (buildInputs target fsets) <;>
        rcases hev with hev | hev <;>
        simp [ScanFS, h1, hlen, hinit, hscan, hev]

/-- Witness for C6 at a concrete two-path mapping with three documents. -/
theorem claim_C6_witness :
    (buildInputs () [("pod.yaml", [(7 : Nat)]), ("svc.yaml", [8, 9])]).length
      = ([("pod.yaml", [(7 : Nat)]), ("svc.yaml", [8, 9])].map
          fun pf => pf.2.length).sum ∧
    ((buildInputs () [("pod.yaml", [(7 : Nat)]), ("svc.yaml", [8, 9])]).map
        fun i => (i.Path, i.Contents))
      = [("pod.yaml", [(7 : Nat)]), ("svc.yaml", [8, 9])].foldr
          (fun pf acc => (pf.2.map fun d => (pf.1, d)) ++ acc) [] := by
  have h := claim_C6_input_adapter_flattening demoEnv demoScanner () "."
    [("pod.yaml", [7]), ("svc.yaml", [8, 9])] (by decide) (by decide)
    (by decide)
  exact ⟨h.1, h.2.2.1⟩

/-- C7: on a successful non-empty scan, `ScanFS` returns exactly the
evaluation output annotated once by `SetSourceAndFilesystem` with the empty
source label, the scanned filesystem and a mixed-filesystem flag of false,
and every returned finding carries those three provenance values. -/
theorem claim_C7_provenance_set_once
    {FS Doc Err Engine Reader Writer Framework Data Rule Status : Type}
    (env : Env FS Doc Err Engine Reader Writer Framework Data Rule Status)
    (s : Scanner FS Reader Writer Framework Engine) (target : FS) (dir : String)
    (fsets : List (String × List Doc)) (eng : Engine)
    (s2 : Scanner FS Reader Writer Framework Engine) (ev : List (Event FS Doc))
    (raw : Results Rule Status FS)
    (h1 : env.parseFS s.parser target dir = .ok fsets)
    (h2 : fsets ≠ [])
    (h3 : initRegoScanner env s target = (.ok eng, s2, ev))
    (h4 : env.scanInput eng (buildInputs target fsets) = .ok raw) :
    (ScanFS env s target dir).1
      = .ok (some (SetSourceAndFilesystem raw "" target false)) ∧
    (∀ rs, (ScanFS env s target dir).1 = .ok (some rs) →
      ∀ r ∈ rs, r.source = "" ∧ r.fsys = some target ∧ r.fsMixed = false) := by
  have hlen : ¬fsets.length = 0 := by simpa [List.length_eq_zero] using h2
  have hmain : (ScanFS env s target dir).1
      = .ok (some (SetSourceAndFilesystem raw "" target false)) := by
    simp [ScanFS, h1, hlen, h3, h4]
  refine ⟨hmain, ?_⟩
  intro rs hrs r hr
  rw [hmain] at hrs
  have hrs2 : rs = SetSourceAndFilesystem raw "" target false := by
    simpa using hrs.symm
  subst hrs2
  obtain ⟨x, _, rfl⟩ := List.mem_map.mp hr
  exact ⟨rfl, rfl, rfl⟩

/-- Witness for C7 at the concrete two-path environment: each finding of the
returned result carries the empty source, the scanned filesystem, and a false
mixed-filesystem flag. -/
theorem claim_C7_witness :
    (ScanFS demoEnv demoScanner () ".").1
      = .ok (some (SetSourceAndFilesystem
          [⟨7, true, "raw", none, true⟩, ⟨8, true, "raw", none, true⟩,
            ⟨9, true, "raw", none, true⟩] "" () false)) :=
  (claim_C7_provenance_set_once demoEnv demoScanner () "."
    [("pod.yaml", [7]), ("svc.yaml", [8, 9])] 0
    { demoScanner with regoScanner := some 0 }
    [Event.newEngine, Event.loadPolicies]
    [⟨7, true, "raw", none, true⟩, ⟨8, true, "raw", none, true⟩,
      ⟨9, true, "raw", none, true⟩]
    (by decide) (by decide) (by decide) (by decide)).1

/-- C3: once an engine is cached, `initRegoScanner` returns it with no error,
an unchanged scanner, and no external calls, for every filesystem argument and
regardless of any later change to policy directories, policy readers, or the
embedded-policy flag. -/
theorem claim_C3_cached_engine_idempotent
    {FS Doc Err Engine Reader Writer Framework Data Rule Status : Type}
    (env : Env FS Doc Err Engine Reader Writer Framework Data Rule Status)
    (s : Scanner FS Reader Writer Framework Engine) (e : Engine)
    (h : s.regoScanner = some e) :
    (∀ srcFS : FS, initRegoScanner env s srcFS = (.ok e, s, [])) ∧
    (∀ (ds : List String) (rs : List Reader) (b : Bool) (srcFS : FS),
      initRegoScanner env
          { s with policyDirs := ds, policyReaders := rs, loadEmbedded := b } srcFS
        = (.ok e, { s with policyDirs := ds, policyReaders := rs, loadEmbedded := b },
            [])) := by
  constructor
  · intro srcFS
    simp [initRegoScanner, h]
  · intro ds rs b srcFS
    simp [initRegoScanner, h]

/-- Witness for C3 at a concrete scanner holding engine 42 in its cache. -/
theorem claim_C3_witness :
    demoScannerCached.regoScanner = some 42 ∧
    initRegoScanner demoEnv demoScannerCached () = (.ok 42, demoScannerCached, []) :=
  ⟨by decide,
    (claim_C3_cached_engine_idempotent demoEnv demoScannerCached 42 (by decide)).1 ()⟩

/-- C4: with an empty engine cache, a policy-loading failure makes
`initRegoScanner` return (nil engine, that error) with the cache still empty,
and a subsequent call attempts construction (invokes `LoadPolicies`) again. -/
theorem claim_C4_load_failure_leaves_cache_empty
    {FS Doc Err Engine Reader Writer Framework Data Rule Status : Type}
    (env : Env FS Doc Err Engine Reader Writer Framework Data Rule Status)
    (s : Scanner FS Reader Writer Framework Engine) (srcFS : FS) (err : Err)
    (h1 : s.regoScanner = none)
    (h2 : env.loadPolicies (env.newScanner s.options s.debug) s.loadEmbedded srcFS
            s.policyDirs s.policyReaders = some err) :
    initRegoScanner env s srcFS
      = (.error err, s, ([Event.newEngine, Event.loadPolicies] : List (Event FS Doc))) ∧
    (initRegoScanner env s srcFS).2.1.regoScanner = none ∧
    Event.loadPolicies ∈ (initRegoScanner env (initRegoScanner env s srcFS).2.1 srcFS).2.2 := by
  simp [initRegoScanner, h1, h2]

/-- Witness for C4 at a concrete environment whose policy loading fails. -/
theorem claim_C4_witness :
    demoScanner.regoScanner = none ∧
    initRegoScanner envLoadFail demoScanner ()
      = (.error 5, demoScanner, [Event.newEngine, Event.loadPolicies]) :=
  ⟨by decide,
    (claim_C4_load_failure_leaves_cache_empty envLoadFail demoScanner () 5
      (by decide) (by decide)).1⟩

/-- C5: a parser error is returned by `ScanFS` exactly as produced (nil
result, that error), with the scanner — in particular the cached-engine
field — unchanged. -/
theorem claim_C5_parse_error_propagated
    {FS Doc Err Engine Reader Writer Framework Data Rule Status : Type}
    (env : Env FS Doc Err Engine Reader Writer Framework Data Rule Status)
    (s : Scanner FS Reader Writer Framework Engine) (target : FS) (dir : String)
    (e : Err)
    (h : env.parseFS s.parser target dir = .error e) :
    ScanFS env s target dir = (.error e, s, [Event.parse dir]) ∧
    (ScanFS env s target dir).2.1.regoScanner = s.regoScanner := by
  simp [ScanFS, h]

/-- Witness for C5 at a concrete environment whose parser fails with error 3. -/
theorem claim_C5_witness :
    envParseErr.parseFS demoScanner.parser () "." = .error 3 ∧
    ScanFS envParseErr demoScanner () "." = (.error 3, demoScanner, [Event.parse "."]) :=
  ⟨by decide,
    (claim_C5_parse_error_propagated envParseErr demoScanner () "." 3 (by decide)).1⟩

/-- C8: `ScanReader` fails with the I/O error when directory creation, stream
reading, or file writing fails (nil result, scanner untouched, no scan
activity); otherwise it returns exactly what `ScanFS` returns on the
constructed single-file in-memory filesystem scanned from directory ".", so
both entry points produce identical findings for the same content. -/
theorem claim_C8_reader_delegates_to_scanfs
    {FS Doc Err Engine Reader Writer Framework Data Rule Status : Type}
    (env : Env FS Doc Err Engine Reader Writer Framework Data Rule Status)
    (s : Scanner FS Reader Writer Framework Engine) (filename : String)
    (reader : Reader) :
    (∀ e, env.mkdirAll env.emptyFS (filepathBase filename) = .error e →
      ScanReader env s filename reader = (.error e, s, [])) ∧
    (∀ m0, env.mkdirAll env.emptyFS (filepathBase filename) = .ok m0 →
      (∀ e, env.readAll reader = .error e →
        ScanReader env s filename reader = (.error e, s, [])) ∧
      (∀ data, env.readAll reader = .ok data →
        (∀ e, env.writeFile m0 filename data = .error e →
          ScanReader env s filename reader = (.error e, s, [])) ∧
        (∀ memfs, env.writeFile m0 filename data = .ok memfs →
          ScanReader env s filename reader = ScanFS env s memfs "."))) := by
  refine ⟨?_, ?_⟩
  · intro e he
    simp [ScanReader, he]
  · intro m0 hm0
    refine ⟨?_, ?_⟩
    · intro e he
      simp [ScanReader, hm0, he]
    · intro data hdata
      refine ⟨?_, ?_⟩
      · intro e he
        simp [ScanReader, hm0, hdata, he]
      · intro memfs hw
        simp [ScanReader, hm0, hdata, hw]

/-- Witness for C8 at the concrete environment: the stream entry point
returns exactly the filesystem entry point's answer on the materialized
filesystem. -/
theorem claim_C8_witness :
    ScanReader demoEnv demoScanner "pod.yaml" () = ScanFS demoEnv demoScanner () "." :=
  ((((claim_C8_reader_delegates_to_scanfs demoEnv demoScanner "pod.yaml" ()).2
      () (by decide)).2 [1, 2] (by decide)).2 () (by decide))

/-- C10: `NewScanner` builds the document parser exactly once, from the
`skipRequired` flag produced by folding the construction options; appending a
skip-required option makes the parser carry precisely that flag; and
`SetSkipRequiredCheck` afterwards rewrites only the `skipRequired` field —
the parser configuration, hence the parse step of any subsequent scan, is
unchanged. -/
theorem claim_C10_parser_frozen_at_construction
    {FS Doc Err Engine Reader Writer Framework Data Rule Status : Type}
    (opts : List (ScannerOption FS Reader Writer Framework))
    (s : Scanner FS Reader Writer Framework Engine) (b v : Bool) :
    (NewScanner opts : Scanner FS Reader Writer Framework Engine).parser
      = ⟨(opts.foldl (fun s o => applyOption o s)
          { zeroScanner FS Reader Writer Framework Engine with
              options := opts }).skipRequired⟩ ∧
    (NewScanner (opts ++ [ScannerOption.setSkipRequiredCheck v])
        : Scanner FS Reader Writer Framework Engine).parser = ⟨v⟩ ∧
    SetSkipRequiredCheck s b = { s with skipRequired := b } ∧
    (SetSkipRequiredCheck s b).parser = s.parser ∧
    (∀ (env : Env FS Doc Err Engine Reader Writer Framework Data Rule Status)
        (target : FS) (dir : String),
      env.parseFS (SetSkipRequiredCheck s b).parser target dir
        = env.parseFS s.parser target dir) := by
  refine ⟨rfl, ?_, rfl, rfl, fun _ _ _ => rfl⟩
  simp [NewScanner, List.foldl_append, applyOption, SetSkipRequiredCheck]

/-- The mutex invariant holds initially. -/
theorem inv_initCState {Engine : Type} (newEngine : Nat → Engine) :
    Inv newEngine (initCState Engine) := by
  refine ⟨fun i h => ?_, fun i h => ?_, fun _ => rfl, fun e h => ?_,
    fun i e h => ?_⟩
  · rcases h with h | h <;> exact absurd h (by simp [initCState])
  · exact absurd h (by simp [initCState])
  · exact absurd h (by simp [initCState])
  · exact absurd h (by simp [initCState])

/-- Every interleaved step preserves the mutex invariant. -/
theorem inv_step {Engine : Type} {newEngine : Nat → Engine}
    {st st2 : CState Engine} (hinv : Inv newEngine st)
    (hs : Step newEngine st st2) : Inv newEngine st2 := by
  obtain ⟨h1, h2, h3, h4, h5⟩ := hinv
  cases hs with
  | acquire i hpc hlock =>
    refine ⟨fun j hj => ?_, fun j hj => ?_, h3, h4, fun j e hj => ?_⟩
    · dsimp only at hj ⊢
      rcases eq_or_ne j i with rfl | hij
      · rfl
      · rw [Function.update_noteq hij] at hj
        rw [h1 j hj] at hlock
        cases hlock
    · dsimp only at hj ⊢
      rcases eq_or_ne j i with rfl | hij
      · rw [Function.update_same] at hj
        cases hj
      · rw [Function.update_noteq hij] at hj
        exact h2 j hj
    · dsimp only at hj ⊢
      rcases eq_or_ne j i with rfl | hij
      · rw [Function.update_same] at hj
        cases hj
      · rw [Function.update_noteq hij] at hj
        exact h5 j e hj
  | hitCache i e hpc hlock hcache =>
    refine ⟨fun j hj => ?_, fun j hj => ?_, fun hc => ?_, fun e2 hc => h4 e2 hc,
      fun j e2 hj => ?_⟩
    · dsimp only at hj ⊢
      rcases eq_or_ne j i with rfl | hij
      · rw [Function.update_same] at hj
        rcases hj with hj | hj <;> cases hj
      · rw [Function.update_noteq hij] at hj
        have hl := h1 j hj
        rw [hlock] at hl
        cases hl
        exact absurd rfl hij
    · dsimp only at hj ⊢
      rcases eq_or_ne j i with rfl | hij
      · rw [Function.update_same] at hj
        cases hj
      · rw [Function.update_noteq hij] at hj
        exact h2 j hj
    · dsimp only at hc
      rw [hcache] at hc
      cases hc
    · dsimp only at hj ⊢
      rcases eq_or_ne j i with rfl | hij
      · rw [Function.update_same] at hj
        cases hj
        exact hcache
      · rw [Function.update_noteq hij] at hj
        exact h5 j e2 hj
  | missCache i hpc hlock hcache =>
    refine ⟨fun j hj => ?_, fun j _ => hcache, fun _ => h3 hcache,
      fun e hc => ?_, fun j e hj => ?_⟩
    · dsimp only at hj ⊢
      rcases eq_or_ne j i with rfl | hij
      · exact hlock
      · rw [Function.update_noteq hij] at hj
        exact h1 j hj
    · dsimp only at hc
      rw [hcache] at hc
      cases hc
    · dsimp only at hj ⊢
      rcases eq_or_ne j i with rfl | hij
      · rw [Function.update_same] at hj
        cases hj
      · rw [Function.update_noteq hij] at hj
        have h5j := h5 j e hj
        rw [hcache] at h5j
        cases h5j
  | construct i hpc hlock =>
    have hcache : st.cache = none := h2 i hpc
    have hcount : st.loadCount = 0 := h3 hcache
    refine ⟨fun j hj => ?_, fun j hj => ?_, fun hc => ?_, fun e hc => ?_,
      fun j e hj => ?_⟩
    · dsimp only at hj ⊢
      rcases eq_or_ne j i with rfl | hij
      · rw [Function.update_same] at hj
        rcases hj with hj | hj <;> cases hj
      · rw [Function.update_noteq hij] at hj
        have hl := h1 j hj
        rw [hlock] at hl
        cases hl
        exact absurd rfl hij
    · dsimp only at hj ⊢
      rcases eq_or_ne j i with rfl | hij
      · rw [Function.update_same] at hj
        cases hj
      · rw [Function.update_noteq hij] at hj
        have hl := h1 j (Or.inr hj)
        rw [hlock] at hl
        cases hl
        exact absurd rfl hij
    · dsimp only at hc
      cases hc
    · dsimp only at hc ⊢
      cases hc
      rw [hcount]
      exact ⟨rfl, rfl⟩
    · dsimp only at hj ⊢
      rcases eq_or_ne j i with rfl | hij
      · rw [Function.update_same] at hj
        cases hj
        rfl
      · rw [Function.update_noteq hij] at hj
        have h5j := h5 j e hj
        rw [hcache] at h5j
        cases h5j

/-- Every state reachable from the initial state satisfies the mutex
invariant. -/
theorem inv_reachable {Engine : Type} {newEngine : Nat → Engine}
    {st : CState Engine}
    (h : Relation.ReflTransGen (Step newEngine) (initCState Engine) st) :
    Inv newEngine st := by
  induction h with
  | refl => exact inv_initCState newEngine
  | tail _ hstep ih => exact inv_step ih hstep

/-- C9: in every interleaving of any number of threads calling
`initRegoScanner` concurrently on one scanner instance, the construction
routine runs at most once; once any thread has finished, it has run exactly
once, and every finished thread observed the same — the single constructed —
engine. -/
theorem claim_C9_single_engine_construction {Engine : Type}
    (newEngine : Nat → Engine) (st : CState Engine)
    (h : Relation.ReflTransGen (Step newEngine) (initCState Engine) st) :
    st.loadCount ≤ 1 ∧
    (∀ i e, st.pcs i = .done e → st.loadCount = 1 ∧ e = newEngine 0) ∧
    (∀ i j e e2, st.pcs i = .done e → st.pcs j = .done e2 → e = e2) := by
  obtain ⟨_, _, h3, h4, h5⟩ := inv_reachable h
  have hdone : ∀ i e, st.pcs i = .done e → st.loadCount = 1 ∧ e = newEngine 0 := by
    intro i e hi
    have hc := h5 i e hi
    exact h4 e hc
  refine ⟨?_, hdone, fun i j e e2 hi hj => ?_⟩
  · cases hc : st.cache with
    | none => rw [h3 hc]; exact Nat.zero_le 1
    | some e => rw [(h4 e hc).1]
  · rw [(hdone i e hi).2, (hdone j e2 hj).2]

/-- Witness for C9 at the initial state of the interleaving model. -/
theorem claim_C9_witness :
    (initCState Nat).loadCount ≤ 1 ∧
    (∀ i e, (initCState Nat).pcs i = .done e →
      (initCState Nat).loadCount = 1 ∧ e = (fun k => k + 10) 0) ∧
    (∀ i j e e2, (initCState Nat).pcs i = .done e →
      (initCState Nat).pcs j = .done e2 → e = e2) :=
  claim_C9_single_engine_construction (fun k => k + 10) (initCState Nat)
    Relation.ReflTransGen.refl

end K8s
